import Mathlib

/-!
Verification of the `deploy.py` deployment orchestrator.

We give a shallow embedding of the orchestrator: each method of
`EC2Deployer` becomes a Lean function from a configuration and a
*scenario* (the outcomes the cloud provider returns for each API call)
to the trace of cloud API calls the method issues plus its result.
Machine-level side effects (HTTP probes, sleeps, SSM commands) appear
as explicit events in the traces.
-/

namespace Deploy

/-! ## Configuration (`load_config` / per-stage JSON file)

The configuration is a JSON object; we model the recognized keys as
optional fields (a `none` field is an absent key).  `dict.get(k, d)` is
`Option.getD`; `dict[k]` on a missing key is a `KeyError`. -/

structure Config where
  instance_type : Option String := none
  ami_id : Option String := none
  github_repo : Option String := none
  stop_after_minutes : Option Nat := none
  bucket_name : Option String := none
  aws_key : Option String := none
deriving DecidableEq, Repr

/-- The built-in default configuration used when the stage config file is
absent (`load_config`, `FileNotFoundError` branch). -/
def defaultConfig : Config :=
  { instance_type := some "t2.micro"
    ami_id := some "ami-0f5ee92e2d63afc18"
    github_repo := some "https://github.com/techeazy-consulting/techeazy-devops"
    stop_after_minutes := some 60 }

/-! ## Resource naming (`__init__` and the f-strings deriving names)

`EC2Deployer.__init__` lowercases the stage once (`stage.lower()`);
every derived name is an f-string over `self.stage`. -/

/-- Python's `str.lower()`: lowercase every character. -/
def lowerStr (s : String) : String := ⟨s.data.map Char.toLower⟩

/-- `self.stage = stage.lower()` in `__init__`. -/
def stageOf (rawStage : String) : String := lowerStr rawStage

/-- `config_file = f"{self.stage}_config.json"` in `load_config`. -/
def configFileName (stage : String) : String := stage ++ "_config.json"

/-- `read_role_name = f"S3ReadOnlyRole-{self.stage}"`. -/
def readRoleName (stage : String) : String := "S3ReadOnlyRole-" ++ stage

/-- `upload_role_name = f"S3UploadOnlyRole-{self.stage}"`. -/
def uploadRoleName (stage : String) : String := "S3UploadOnlyRole-" ++ stage

/-- `profile_name = f"EC2-S3-Upload-Profile-{self.stage}"`. -/
def profileNameOf (stage : String) : String := "EC2-S3-Upload-Profile-" ++ stage

/-- `sg_name = f"techeazy-sg-{self.stage}"` in `create_security_group`. -/
def sgNameOf (stage : String) : String := "techeazy-sg-" ++ stage

/-! ## Security groups (`create_security_group`) -/

/-- One entry of an `IpRanges` list in an EC2 ip permission. -/
structure IpRange where
  cidrIp : String
deriving DecidableEq, Repr

/-- An EC2 `IpPermission` dict: protocol, optional `FromPort`/`ToPort`
(absent for protocol `-1` rules), and its IPv4 ranges. -/
structure IpPermission where
  ipProtocol : String
  fromPort : Option Nat
  toPort : Option Nat
  ipRanges : List IpRange
deriving DecidableEq, Repr

/-- The single-port all-sources TCP rule the script builds for a port
(both in `new_permissions` and in the create-path authorize call). -/
def mkRule (port : Nat) : IpPermission :=
  { ipProtocol := "tcp", fromPort := some port, toPort := some port
    ipRanges := [{ cidrIp := "0.0.0.0/0" }] }

/-- The `existing_ports` list computed by `create_security_group`: for
each permission having a `FromPort` and protocol `tcp`, the `FromPort`
is appended once per ip-range equal to `0.0.0.0/0`. -/
def existingPorts (perms : List IpPermission) : List Nat :=
  perms.foldl (fun acc perm =>
    match perm.fromPort with
    | none => acc
    | some fp =>
      if perm.ipProtocol = "tcp" then
        acc ++ (perm.ipRanges.filter (fun r => r.cidrIp = "0.0.0.0/0")).map
          (fun _ => fp)
      else acc) []

/-- The hard-coded required port list `[22, 80, 8080]`. -/
def requiredPorts : List Nat := [22, 80, 8080]

/-- `ports_to_add`: required ports whose value is not in `existing_ports`. -/
def portsToAdd (perms : List IpPermission) : List Nat :=
  requiredPorts.filter (fun p => ¬ (existingPorts perms).contains p)

/-- Modelled from the spec's words (not from the code): port `p` is
"already open via a TCP rule to source 0.0.0.0/0" when some existing
TCP permission with an unrestricted source range covers `p` in its
`FromPort`–`ToPort` interval.  Used only to compare the code's
reconciliation against the specification's notion of an open port. -/
def portOpenPerSpec (perms : List IpPermission) (p : Nat) : Bool :=
  perms.any (fun perm =>
    decide (perm.ipProtocol = "tcp") &&
    (match perm.fromPort, perm.toPort with
     | some f, some t => (decide (f ≤ p) && decide (p ≤ t))
     | _, _ => false) &&
    perm.ipRanges.any (fun r => r.cidrIp = "0.0.0.0/0"))

/-- EC2 security-group API mutations.  `revokeIngress` is part of the
provider surface; the script never issues it. -/
inductive SGAction where
  | createGroup (name description : String)
  | authorizeIngress (groupId : String) (permissions : List IpPermission)
  | revokeIngress (groupId : String) (permissions : List IpPermission)
deriving DecidableEq, Repr

/-- Environment seen by `create_security_group`: whether the
describe/authorize block raises a `ClientError`, and the existing group
(its id and current permissions) if the name filter matches one. -/
structure SGScenario where
  clientError : Bool
  existing : Option (String × List IpPermission)
deriving DecidableEq, Repr

/-- Result of `create_security_group`: a group id, or `None` (fall back
to the default group). -/
inductive SGResult where
  | groupId (id : String)
  | noGroup
deriving DecidableEq, Repr

/-- `create_security_group`.  On a `ClientError` the except-branch logs
and returns `None`.  If the describe call finds the group, the missing
required ports are computed and, when non-empty, authorized in one
call; otherwise the group is created and all three rules authorized. -/
def create_security_group (stage : String) (sc : SGScenario) :
    List SGAction × SGResult :=
  if sc.clientError then ([], .noGroup)
  else
    match sc.existing with
    | some (sgId, perms) =>
      let toAdd := portsToAdd perms
      if toAdd.isEmpty then ([], .groupId sgId)
      else ([.authorizeIngress sgId (toAdd.map mkRule)], .groupId sgId)
    | none =>
      let newId := "sg-new"
      ([.createGroup (sgNameOf stage)
          "Security group for port 22, 80 and 8080 access",
        .authorizeIngress newId [mkRule 80, mkRule 8080, mkRule 22]],
       .groupId newId)

/-! ## IAM policy documents (`create_iam_roles`, policy dicts) -/

/-- A principal in a trust-policy statement: either a `Service` entry or
an `AWS` (identity ARN) entry. -/
inductive Principal where
  | service (name : String)
  | aws (arn : String)
deriving DecidableEq, Repr

/-- One statement of a trust policy. -/
structure TrustStatement where
  effect : String
  principal : Principal
  action : String
deriving DecidableEq, Repr

/-- `ec2_only_trust_policy`: only the EC2 service may assume the role. -/
def ec2_only_trust_policy : List TrustStatement :=
  [{ effect := "Allow", principal := .service "ec2.amazonaws.com"
     action := "sts:AssumeRole" }]

/-- `read_role_trust_policy(user_arn)`: the EC2 service and the caller's
identity ARN may both assume the role. -/
def read_role_trust_policy (userArn : String) : List TrustStatement :=
  [{ effect := "Allow", principal := .service "ec2.amazonaws.com"
     action := "sts:AssumeRole" },
   { effect := "Allow", principal := .aws userArn
     action := "sts:AssumeRole" }]

/-- A trust policy permits `sts:AssumeRole` by principal `p` when some
Allow statement names `p` with that action. -/
def trustAllowsAssume (pol : List TrustStatement) (p : Principal) : Prop :=
  ∃ st ∈ pol, st.effect = "Allow" ∧ st.action = "sts:AssumeRole" ∧
    st.principal = p

instance (pol : List TrustStatement) (p : Principal) :
    Decidable (trustAllowsAssume pol p) := by
  unfold trustAllowsAssume; infer_instance

/-- One statement of a permission policy. -/
structure PermStatement where
  effect : String
  actions : List String
  resources : List String
deriving DecidableEq, Repr

/-- `read_policy`: `s3:GetObject` and `s3:ListBucket` on the configured
bucket and its contents. -/
def read_policy (bucket : String) : List PermStatement :=
  [{ effect := "Allow", actions := ["s3:GetObject", "s3:ListBucket"]
     resources := ["arn:aws:s3:::" ++ bucket, "arn:aws:s3:::" ++ bucket ++ "/*"] }]

/-- `upload_policy`: `s3:PutObject` on the bucket's contents and
`s3:CreateBucket` on every bucket. -/
def upload_policy (bucket : String) : List PermStatement :=
  [{ effect := "Allow", actions := ["s3:PutObject"]
     resources := ["arn:aws:s3:::" ++ bucket ++ "/*"] },
   { effect := "Allow", actions := ["s3:CreateBucket"]
     resources := ["arn:aws:s3:::*"] }]

/-- A permission policy allows action `a` on resource `r` when some
Allow statement lists both. -/
def permAllows (pol : List PermStatement) (a r : String) : Prop :=
  ∃ st ∈ pol, st.effect = "Allow" ∧ a ∈ st.actions ∧ r ∈ st.resources

instance (pol : List PermStatement) (a r : String) :
    Decidable (permAllows pol a r) := by
  unfold permAllows; infer_instance

/-- ARN of the managed policy attached to the upload role for SSM. -/
def ssmManagedPolicyArn : String :=
  "arn:aws:iam::aws:policy/AmazonSSMManagedInstanceCore"

/-! ## IAM provisioning (`create_iam_roles`) -/

/-- IAM API mutations issued by `create_iam_roles`. -/
inductive IamAction where
  | createRole (name : String) (trust : List TrustStatement)
  | putRolePolicy (role policyName : String) (doc : List PermStatement)
  | attachRolePolicy (role policyArn : String)
  | createInstanceProfile (name : String)
  | addRoleToInstanceProfile (profile role : String)
deriving DecidableEq, Repr

/-- Outcome the provider returns for one IAM call. -/
inductive IamOutcome where
  | ok
  | entityAlreadyExists
  | limitExceeded
  | otherClientError
deriving DecidableEq, Repr

/-- Outcomes for the seven IAM calls of `create_iam_roles`, in program
order. -/
structure IamScenario where
  createReadRole : IamOutcome
  putReadPolicy : IamOutcome
  createUploadRole : IamOutcome
  attachSsmPolicy : IamOutcome
  putUploadPolicy : IamOutcome
  createProfile : IamOutcome
  addRoleToProfile : IamOutcome
deriving DecidableEq, Repr

/-- Scenario in which every IAM call succeeds outright. -/
def iamAllOk : IamScenario :=
  ⟨.ok, .ok, .ok, .ok, .ok, .ok, .ok⟩

/-- Result of `create_iam_roles`. `failed` is the outer `except` branch
returning `(None, None)`; `fatalExit` is the `sys.exit(1)` on an
unresolved caller identity; `keyError` is the uncaught `KeyError`
raised when `self.config['bucket_name']` is accessed with no such key. -/
inductive IamResult where
  | success (profileName readRoleName : String)
  | failed
  | fatalExit (code : Nat)
  | keyError
deriving DecidableEq, Repr

/-- `create_role` treats `EntityAlreadyExists` as reuse; anything but
that or success reaches the outer except. -/
def createRoleBenign : IamOutcome → Bool
  | .ok => true
  | .entityAlreadyExists => true
  | _ => false

/-- `add_role_to_instance_profile` treats `LimitExceeded` as
already-attached. -/
def addRoleBenign : IamOutcome → Bool
  | .ok => true
  | .limitExceeded => true
  | _ => false

/-- `create_iam_roles`: resolve the caller identity (failure is
`sys.exit(1)`), build the policy documents (a missing `bucket_name` key
raises `KeyError` before any IAM call), then issue the seven IAM calls
in order, stopping at the first outcome the code does not treat as
benign (the outer `except ClientError` returns `(None, None)`). -/
def create_iam_roles (stage : String) (cfg : Config)
    (callerIdentity : Option String) (sc : IamScenario) :
    List IamAction × IamResult :=
  match callerIdentity with
  | none => ([], .fatalExit 1)
  | some userArn =>
    match cfg.bucket_name with
    | none => ([], .keyError)
    | some bucket =>
      let a1 : IamAction := .createRole (readRoleName stage)
        (read_role_trust_policy userArn)
      if ¬ createRoleBenign sc.createReadRole then ([a1], .failed) else
      let a2 : IamAction := .putRolePolicy (readRoleName stage)
        "S3ReadOnlyPolicy" (read_policy bucket)
      if sc.putReadPolicy ≠ .ok then ([a1, a2], .failed) else
      let a3 : IamAction := .createRole (uploadRoleName stage)
        ec2_only_trust_policy
      if ¬ createRoleBenign sc.createUploadRole then
        ([a1, a2, a3], .failed) else
      let a4 : IamAction := .attachRolePolicy (uploadRoleName stage)
        ssmManagedPolicyArn
      if sc.attachSsmPolicy ≠ .ok then ([a1, a2, a3, a4], .failed) else
      let a5 : IamAction := .putRolePolicy (uploadRoleName stage)
        "S3UploadOnlyPolicy" (upload_policy bucket)
      if sc.putUploadPolicy ≠ .ok then
        ([a1, a2, a3, a4, a5], .failed) else
      let a6 : IamAction := .createInstanceProfile (profileNameOf stage)
      if ¬ createRoleBenign sc.createProfile then
        ([a1, a2, a3, a4, a5, a6], .failed) else
      let a7 : IamAction := .addRoleToInstanceProfile (profileNameOf stage)
        (uploadRoleName stage)
      if ¬ addRoleBenign sc.addRoleToProfile then
        ([a1, a2, a3, a4, a5, a6, a7], .failed)
      else
        ([a1, a2, a3, a4, a5, a6, a7],
         .success (profileNameOf stage) (readRoleName stage))

/-! ## S3 bucket provisioning (`create_s3_bucket`) -/

/-- The `PublicAccessBlockConfiguration` dict. -/
structure PublicAccessBlockConfig where
  blockPublicAcls : Bool
  ignorePublicAcls : Bool
  blockPublicPolicy : Bool
  restrictPublicBuckets : Bool
deriving DecidableEq, Repr

/-- The configuration passed to `put_public_access_block`. -/
def privateAccessConfig : PublicAccessBlockConfig :=
  ⟨true, true, true, true⟩

/-- One lifecycle rule. -/
structure LifecycleRule where
  id : String
  status : String
  filterPrefix : String
  expirationDays : Nat
deriving DecidableEq, Repr

/-- The `lifecycle_config` rule: expire objects under `logs/` after 7
days. -/
def deleteLogsRule : LifecycleRule :=
  { id := "DeleteLogsAfter7Days", status := "Enabled"
    filterPrefix := "logs/", expirationDays := 7 }

/-- S3 API mutations issued by `create_s3_bucket`. -/
inductive S3Action where
  | createBucket (name : String) (locationConstraint : String)
  | putPublicAccessBlock (name : String) (cfg : PublicAccessBlockConfig)
  | putBucketLifecycle (name : String) (rules : List LifecycleRule)
deriving DecidableEq, Repr

/-- Outcome the provider returns for one S3 call. -/
inductive S3Outcome where
  | ok
  | bucketAlreadyOwnedByYou
  | otherClientError
deriving DecidableEq, Repr

/-- Outcomes for the three S3 calls of `create_s3_bucket`, in program
order. -/
structure S3Scenario where
  createBucket : S3Outcome
  putPublicAccessBlock : S3Outcome
  putLifecycle : S3Outcome
deriving DecidableEq, Repr

/-- How one step of `create_s3_bucket` ends. -/
inductive StepExit where
  | normal
  | sysExit (code : Nat)
deriving DecidableEq, Repr

/-- The `except ClientError` handler of `create_s3_bucket`: the
`BucketAlreadyOwnedByYou` error code returns normally ("Bucket already
exists"); any other error is `sys.exit(1)`. -/
def s3ErrorHandler : S3Outcome → StepExit
  | .bucketAlreadyOwnedByYou => .normal
  | _ => .sysExit 1

/-- `create_s3_bucket`: exit fatally if `bucket_name` is absent from the
config; otherwise create the bucket, and only on continuing past each
call apply public-access blocking then the lifecycle rule.  The first
`ClientError` jumps to the handler, skipping the remaining calls. -/
def create_s3_bucket (cfg : Config) (sc : S3Scenario) :
    List S3Action × StepExit :=
  match cfg.bucket_name with
  | none => ([], .sysExit 1)
  | some bucket =>
    let a1 : S3Action := .createBucket bucket "ap-south-1"
    if sc.createBucket ≠ .ok then ([a1], s3ErrorHandler sc.createBucket)
    else
      let a2 : S3Action := .putPublicAccessBlock bucket privateAccessConfig
      if sc.putPublicAccessBlock ≠ .ok then
        ([a1, a2], s3ErrorHandler sc.putPublicAccessBlock)
      else
        let a3 : S3Action := .putBucketLifecycle bucket [deleteLogsRule]
        if sc.putLifecycle ≠ .ok then
          ([a1, a2, a3], s3ErrorHandler sc.putLifecycle)
        else ([a1, a2, a3], .normal)

/-! ## Reachability verification (`test_reachability`) -/

/-- What one HTTP probe of the instance produces: a response with a
status code and body, or a `requests` exception. -/
inductive ProbeOutcome where
  | response (statusCode : Nat) (body : String)
  | requestException
deriving Repr

/-- Helper for the substring test: does `needle` occur in the list? -/
def containsSub (needle : List Char) : List Char → Bool
  | [] => needle.isEmpty
  | c :: rest => needle.isPrefixOf (c :: rest) || containsSub needle rest

/-- Python's `needle in haystack` substring test. -/
def strContains (haystack needle : String) : Bool :=
  containsSub needle.data haystack.data

/-- The success test of `test_reachability`: status code 200 and the
body containing `"Successfully Deployed"`. -/
def probeSuccess : ProbeOutcome → Bool
  | .response status body =>
    status = 200 && strContains body "Successfully Deployed"
  | .requestException => false

/-- `max_attempts = 3`. -/
def maxAttempts : Nat := 3

/-- The 60-second inter-attempt backoff. -/
def backoffSeconds : Nat := 60

/-- The 300-second settle delay before the first probe. -/
def settleSeconds : Nat := 300

/-- Observable events of `test_reachability`. -/
inductive ReachEvent where
  | settleSleep (seconds : Nat)
  | probe (attempt : Nat)
  | backoffSleep (seconds : Nat)
deriving DecidableEq, Repr

/-- The `for attempt in range(max_attempts)` loop: probe, return `True`
on success, otherwise sleep the backoff unless this was the last
attempt. `remaining` is the number of loop iterations left. -/
def reachLoop (probes : Nat → ProbeOutcome) :
    Nat → Nat → List ReachEvent × Bool
  | 0, _ => ([], false)
  | remaining + 1, attempt =>
    if probeSuccess (probes attempt) then ([.probe attempt], true)
    else if remaining = 0 then ([.probe attempt], false)
    else
      let rest := reachLoop probes remaining (attempt + 1)
      (.probe attempt :: .backoffSleep backoffSeconds :: rest.1, rest.2)

/-- `test_reachability`: a fixed 300-second settle sleep, then up to
`max_attempts` probes with the backoff between consecutive attempts;
returns `False` after exhausting the attempts, never raising. -/
def test_reachability (probes : Nat → ProbeOutcome) :
    List ReachEvent × Bool :=
  let loopRes := reachLoop probes maxAttempts 0
  (.settleSleep settleSeconds :: loopRes.1, loopRes.2)

/-! ## Log harvest and teardown (`upload_logs_and_stop_instance`) -/

/-- Outcome of a plain client call: success or a `ClientError`. -/
inductive Outcome2 where
  | ok
  | clientError
deriving DecidableEq, Repr

/-- Outcome of the SSM command waiter: success, a `ClientError`, or a
`WaiterError` (e.g. timeout polling the command status). -/
inductive WaitOutcome where
  | ok
  | clientError
  | waiterError
deriving DecidableEq, Repr

/-- Observable events of `upload_logs_and_stop_instance`. -/
inductive HarvestEvent where
  | sleepSeconds (seconds : Nat)
  | ssmSendCommand (instanceId command : String)
  | waitForCommand
  | stopInstances (instanceId : String)
deriving DecidableEq, Repr

/-- Outcomes for the calls of `upload_logs_and_stop_instance`:
`send_command`, the command waiter, the stop after a successful wait,
and the stop inside the `WaiterError` recovery branch. -/
structure HarvestScenario where
  sendCommand : Outcome2
  commandWait : WaitOutcome
  stopAfterWait : Outcome2
  stopInRecovery : Outcome2
deriving DecidableEq, Repr

/-- How `upload_logs_and_stop_instance` ends: a normal return, or an
exception that propagates out of the method (and past `deploy`). -/
inductive HarvestResult where
  | normal
  | uncaughtError
deriving DecidableEq, Repr

/-- `upload_logs_and_stop_instance`: sleep
`config.get('stop_after_minutes', 60)` minutes, send the SSM log-upload
command, sleep 15 s, wait for the command, then stop the instance.  A
`ClientError` anywhere in the try-block is caught and logged;
a `WaiterError` from the waiter is caught and the stop is issued inside
that handler, where a failure of the stop call itself is not caught. -/
def upload_logs_and_stop_instance (cfg : Config) (instanceId : String)
    (sc : HarvestScenario) : List HarvestEvent × HarvestResult :=
  let stopAfter := cfg.stop_after_minutes.getD 60
  let e0 : HarvestEvent := .sleepSeconds (stopAfter * 60)
  let e1 : HarvestEvent := .ssmSendCommand instanceId "/home/ubuntu/upload_logs.sh"
  match sc.sendCommand with
  | .clientError => ([e0, e1], .normal)
  | .ok =>
    let e2 : HarvestEvent := .sleepSeconds 15
    let e3 : HarvestEvent := .waitForCommand
    match sc.commandWait with
    | .clientError => ([e0, e1, e2, e3], .normal)
    | .waiterError =>
      let e4 : HarvestEvent := .stopInstances instanceId
      ([e0, e1, e2, e3, e4],
       match sc.stopInRecovery with
       | .clientError => .uncaughtError
       | .ok => .normal)
    | .ok =>
      let e4 : HarvestEvent := .stopInstances instanceId
      ([e0, e1, e2, e3, e4], .normal)

/-! ## The orchestrator (`launch_instance`, `deploy`, `main`) -/

/-- All cloud mutations a deployment run can issue. -/
inductive CloudAction where
  | iam (a : IamAction)
  | s3 (a : S3Action)
  | sg (a : SGAction)
  | runInstances (imageId instanceType profileName : String)
      (securityGroupId : Option String) (keyName : Option String)
  | ssmSend (instanceId : String)
  | stopInstances (instanceId : String)
deriving DecidableEq, Repr

/-- Result of `launch_instance`. -/
inductive LaunchResult where
  | launched (instanceId : String)
  | fatalExit (code : Nat)
  | keyError
deriving DecidableEq, Repr

/-- The instance id the model uses for a successful `run_instances`. -/
def modelInstanceId : String := "i-model"

/-- `launch_instance`: provision (or reuse) the security group, build
the user-data payload (reading `github_repo`) and the launch request
(reading `ami_id` and `instance_type`; a missing key raises
`KeyError`), then run the instance; a `ClientError` from
`run_instances` is `sys.exit(1)`. -/
def launch_instance (stage : String) (cfg : Config) (sgSc : SGScenario)
    (runInstancesError : Bool) : List CloudAction × LaunchResult :=
  let sgStep := create_security_group stage sgSc
  let sgTrace := sgStep.1.map CloudAction.sg
  match cfg.github_repo, cfg.ami_id, cfg.instance_type with
  | some _, some ami, some itype =>
    let sgId : Option String :=
      match sgStep.2 with
      | .groupId id => some id
      | .noGroup => none
    let launchAct : CloudAction :=
      .runInstances ami itype (profileNameOf stage) sgId cfg.aws_key
    if runInstancesError then (sgTrace ++ [launchAct], .fatalExit 1)
    else (sgTrace ++ [launchAct], .launched modelInstanceId)
  | _, _, _ => (sgTrace, .keyError)

/-- The cloud mutations among the harvest step's events. -/
def harvestMutations : List HarvestEvent → List CloudAction
  | [] => []
  | .sleepSeconds _ :: rest => harvestMutations rest
  | .waitForCommand :: rest => harvestMutations rest
  | .ssmSendCommand iid _ :: rest => .ssmSend iid :: harvestMutations rest
  | .stopInstances iid :: rest => .stopInstances iid :: harvestMutations rest

/-- How the whole run ends: completion (exit code 0), an explicit
`sys.exit`, or an uncaught exception (Python exits non-zero). -/
inductive RunExit where
  | completed
  | exited (code : Nat)
  | crashed
deriving DecidableEq, Repr

/-- Everything the environment decides during one run. -/
structure Scenario where
  callerIdentity : Option String
  iam : IamScenario
  s3 : S3Scenario
  sg : SGScenario
  runInstancesError : Bool
  publicIp : Option String
  probes : Nat → ProbeOutcome
  harvest : HarvestScenario

/-- `EC2Deployer.deploy`: IAM roles, S3 bucket, instance launch, wait,
reachability test (whose result is not consulted), log harvest and
stop, and finally `verify_s3_access` (which only logs failures). -/
def deploy (stage : String) (cfg : Config) (sc : Scenario) :
    List CloudAction × RunExit :=
  let iamStep := create_iam_roles stage cfg sc.callerIdentity sc.iam
  let t1 := iamStep.1.map CloudAction.iam
  match iamStep.2 with
  | .fatalExit c => (t1, .exited c)
  | .keyError => (t1, .crashed)
  | .failed => (t1, .exited 1)
  | .success _profile _readRole =>
    let s3Step := create_s3_bucket cfg sc.s3
    let t2 := t1 ++ s3Step.1.map CloudAction.s3
    match s3Step.2 with
    | .sysExit c => (t2, .exited c)
    | .normal =>
      let launchStep := launch_instance stage cfg sc.sg sc.runInstancesError
      let t3 := t2 ++ launchStep.1
      match launchStep.2 with
      | .fatalExit c => (t3, .exited c)
      | .keyError => (t3, .crashed)
      | .launched iid =>
        let _reachable := (test_reachability sc.probes).2
        let harvestStep := upload_logs_and_stop_instance cfg iid sc.harvest
        let t4 := t3 ++ harvestMutations harvestStep.1
        match harvestStep.2 with
        | .uncaughtError => (t4, .crashed)
        | .normal => (t4, .completed)

/-- The process exit code of `main`: 1 if either credential variable is
absent; otherwise the deployer is built on the lowercased stage and the
run's exit status becomes the process exit code (an uncaught exception
exits non-zero, as 1). -/
def mainExitCode (credentialsPresent : Bool) (rawStage : String)
    (cfg : Config) (sc : Scenario) : Nat :=
  if ¬ credentialsPresent then 1
  else
    match (deploy (stageOf rawStage) cfg sc).2 with
    | .completed => 0
    | .exited c => c
    | .crashed => 1

/-- A scenario in which the caller identity resolves and every provider
call succeeds. -/
def allOkScenario : Scenario :=
  { callerIdentity := some "arn:aws:iam::123456789012:user/dev"
    iam := iamAllOk
    s3 := ⟨.ok, .ok, .ok⟩
    sg := ⟨false, none⟩
    runInstancesError := false
    publicIp := some "203.0.113.10"
    probes := fun _ => .response 200 "<h1>Successfully Deployed</h1>"
    harvest := ⟨.ok, .ok, .ok, .ok⟩ }

/-! ## Theorems -/

/-- C9: for every pair of stage strings that are equal up to letter
case, the deployer derives identical resource names (read role, upload
role, instance profile, security group) and reads the same
configuration file, because the stage is lowercased once at
construction before any name is derived. -/
theorem stage_case_insensitive_names (s1 s2 : String)
    (h : lowerStr s1 = lowerStr s2) :
    stageOf s1 = stageOf s2 ∧
    configFileName (stageOf s1) = configFileName (stageOf s2) ∧
    readRoleName (stageOf s1) = readRoleName (stageOf s2) ∧
    uploadRoleName (stageOf s1) = uploadRoleName (stageOf s2) ∧
    profileNameOf (stageOf s1) = profileNameOf (stageOf s2) ∧
    sgNameOf (stageOf s1) = sgNameOf (stageOf s2) := by
  unfold stageOf
  rw [h]
  exact ⟨rfl, rfl, rfl, rfl, rfl, rfl⟩

/-- Witness for C9 at the concrete stages "DEV" and "dev". -/
theorem stage_case_insensitive_names_witness :
    stageOf "DEV" = stageOf "dev" ∧
    configFileName (stageOf "DEV") = configFileName (stageOf "dev") ∧
    readRoleName (stageOf "DEV") = readRoleName (stageOf "dev") ∧
    uploadRoleName (stageOf "DEV") = uploadRoleName (stageOf "dev") ∧
    profileNameOf (stageOf "DEV") = profileNameOf (stageOf "dev") ∧
    sgNameOf (stageOf "DEV") = sgNameOf (stageOf "dev") :=
  stage_case_insensitive_names "DEV" "dev" (by decide)

/-- C4: against a target that never returns the expected
status/content, `test_reachability` performs exactly 3 probe attempts
with a 60-second backoff between consecutive attempts and returns
`false` without raising; success of a probe requires both status code
200 and the substring "Successfully Deployed" in the body. -/
theorem reachability_exhausts_attempts (probes : Nat → ProbeOutcome)
    (h : ∀ i, i < maxAttempts → probeSuccess (probes i) = false) :
    test_reachability probes =
      ([.settleSleep 300, .probe 0, .backoffSleep 60, .probe 1,
        .backoffSleep 60, .probe 2], false) ∧
    (∀ status body, probeSuccess (.response status body) =
      (decide (status = 200) && strContains body "Successfully Deployed")) ∧
    probeSuccess .requestException = false ∧
    probeSuccess (.response 200 "OK") = false ∧
    probeSuccess (.response 503 "page says Successfully Deployed") = false ∧
    probeSuccess (.response 200 "<h1>Successfully Deployed</h1>") = true := by
  refine ⟨?_, fun s b => rfl, rfl, by decide, by decide, by decide⟩
  have h0 := h 0 (by decide)
  have h1 := h 1 (by decide)
  have h2 := h 2 (by decide)
  simp [test_reachability, reachLoop, maxAttempts, settleSeconds,
    backoffSeconds, h0, h1, h2]

/-- Witness for C4: a target that always raises a request exception. -/
theorem reachability_exhausts_attempts_witness :
    test_reachability (fun _ => .requestException) =
      ([.settleSleep 300, .probe 0, .backoffSleep 60, .probe 1,
        .backoffSleep 60, .probe 2], false) ∧
    (∀ status body, probeSuccess (.response status body) =
      (decide (status = 200) && strContains body "Successfully Deployed")) ∧
    probeSuccess .requestException = false ∧
    probeSuccess (.response 200 "OK") = false ∧
    probeSuccess (.response 503 "page says Successfully Deployed") = false ∧
    probeSuccess (.response 200 "<h1>Successfully Deployed</h1>") = true :=
  reachability_exhausts_attempts (fun _ => .requestException)
    (fun _ _ => rfl)

/-- C10: a configuration lacking `stop_after_minutes` behaves exactly
like one with the key set to 60: the harvest step first sleeps 60
minutes (3600 seconds) and a missing key is never a fatal
configuration error. -/
theorem missing_stop_after_defaults_to_60 (cfg : Config)
    (instanceId : String) (sc : HarvestScenario)
    (h : cfg.stop_after_minutes = none) :
    upload_logs_and_stop_instance cfg instanceId sc =
      upload_logs_and_stop_instance
        { cfg with stop_after_minutes := some 60 } instanceId sc ∧
    (upload_logs_and_stop_instance cfg instanceId sc).1.head? =
      some (.sleepSeconds 3600) := by
  constructor
  · simp [upload_logs_and_stop_instance, h]
  · rcases sc with ⟨send, wt, s1, s2⟩
    cases send <;> cases wt <;>
      simp [upload_logs_and_stop_instance, h]

/-- Witness for C10: the empty configuration (all keys absent). -/
theorem missing_stop_after_defaults_to_60_witness :
    upload_logs_and_stop_instance {} modelInstanceId ⟨.ok, .ok, .ok, .ok⟩ =
      upload_logs_and_stop_instance
        ({ stop_after_minutes := some 60 } : Config) modelInstanceId
        ⟨.ok, .ok, .ok, .ok⟩ ∧
    (upload_logs_and_stop_instance {} modelInstanceId
        ⟨.ok, .ok, .ok, .ok⟩).1.head? = some (.sleepSeconds 3600) :=
  missing_stop_after_defaults_to_60 {} modelInstanceId ⟨.ok, .ok, .ok, .ok⟩ rfl

/-- C2 as stated is false: on the "already owned by caller" reuse path
the `ClientError` raised by the create call skips both
`put_public_access_block` and `put_bucket_lifecycle_configuration`,
and the step still returns normally. -/
theorem bucket_reuse_skips_hardening :
    S3Action.putPublicAccessBlock "logs-bucket" privateAccessConfig ∉
      (create_s3_bucket { defaultConfig with bucket_name := some "logs-bucket" }
        ⟨.bucketAlreadyOwnedByYou, .ok, .ok⟩).1 ∧
    S3Action.putBucketLifecycle "logs-bucket" [deleteLogsRule] ∉
      (create_s3_bucket { defaultConfig with bucket_name := some "logs-bucket" }
        ⟨.bucketAlreadyOwnedByYou, .ok, .ok⟩).1 ∧
    (create_s3_bucket { defaultConfig with bucket_name := some "logs-bucket" }
        ⟨.bucketAlreadyOwnedByYou, .ok, .ok⟩) =
      ([.createBucket "logs-bucket" "ap-south-1"], .normal) := by
  decide

/-- C2 amended: the public-access block and the 7-day `logs/` lifecycle
rule are applied exactly on the runs where the create-bucket call
itself succeeds (a newly created bucket); on the already-owned reuse
path and on error paths they are skipped, and whenever they are issued
they carry the full blocking configuration and the 7-day `logs/`
expiry rule on the configured bucket. -/
theorem bucket_hardening_only_on_creation (cfg : Config) (sc : S3Scenario) :
    (∀ n c, S3Action.putPublicAccessBlock n c ∈ (create_s3_bucket cfg sc).1 →
      c = privateAccessConfig ∧ cfg.bucket_name = some n) ∧
    (∀ n rs, S3Action.putBucketLifecycle n rs ∈ (create_s3_bucket cfg sc).1 →
      rs = [deleteLogsRule] ∧ cfg.bucket_name = some n) ∧
    ((∃ n, S3Action.putPublicAccessBlock n privateAccessConfig ∈
        (create_s3_bucket cfg sc).1) ↔
      cfg.bucket_name.isSome ∧ sc.createBucket = .ok) ∧
    ((∃ n, S3Action.putBucketLifecycle n [deleteLogsRule] ∈
        (create_s3_bucket cfg sc).1) ↔
      cfg.bucket_name.isSome ∧ sc.createBucket = .ok ∧
        sc.putPublicAccessBlock = .ok) := by
  rcases sc with ⟨o1, o2, o3⟩
  rcases hb : cfg.bucket_name with _ | b <;>
    cases o1 <;> cases o2 <;> cases o3 <;>
      simp [create_s3_bucket, hb]

/-- C3 as stated is false: when `send_command` itself raises a
`ClientError`, the `except ClientError` branch only logs — the stop
request is never issued on that execution path. -/
theorem harvest_send_failure_skips_stop :
    HarvestEvent.stopInstances modelInstanceId ∉
      (upload_logs_and_stop_instance defaultConfig modelInstanceId
        ⟨.clientError, .ok, .ok, .ok⟩).1 ∧
    (upload_logs_and_stop_instance defaultConfig modelInstanceId
        ⟨.clientError, .ok, .ok, .ok⟩) =
      ([.sleepSeconds 3600,
        .ssmSendCommand modelInstanceId "/home/ubuntu/upload_logs.sh"],
       .normal) := by
  decide

/-- C3 amended: the stop request is issued exactly when the SSM command
was dispatched successfully and the wait either succeeded or failed
with a waiter error; a `ClientError` during dispatch or wait is logged,
does not propagate, but skips the stop; a `ClientError` from the stop
call after a successful wait is caught, while a stop failure inside the
waiter-error recovery branch propagates out of the method. -/
theorem harvest_stop_paths (cfg : Config) (instanceId : String)
    (sc : HarvestScenario) :
    ((HarvestEvent.stopInstances instanceId ∈
        (upload_logs_and_stop_instance cfg instanceId sc).1) ↔
      (sc.sendCommand = .ok ∧ sc.commandWait ≠ .clientError)) ∧
    ((upload_logs_and_stop_instance cfg instanceId sc).2 = .uncaughtError ↔
      (sc.sendCommand = .ok ∧ sc.commandWait = .waiterError ∧
        sc.stopInRecovery = .clientError)) := by
  rcases sc with ⟨send, wt, stopMain, stopRec⟩
  cases send <;> cases wt <;> cases stopMain <;> cases stopRec <;>
    simp [upload_logs_and_stop_instance]

/-- C1 as stated is false: a port covered by an existing multi-port TCP
range rule open to 0.0.0.0/0 is "already open" in the claim's sense,
yet reconciliation matches required ports only against each rule's
`FromPort`, so it re-adds such a port.  Here ports 22, 80 and 8080 are
all open via the 20–8080 range rule, yet all three are authorized
again. -/
theorem sg_range_rule_is_readded :
    portOpenPerSpec
      [{ ipProtocol := "tcp", fromPort := some 20, toPort := some 8080
         ipRanges := [{ cidrIp := "0.0.0.0/0" }] }] 80 = true ∧
    (create_security_group "dev"
      ⟨false, some ("sg-1",
        [{ ipProtocol := "tcp", fromPort := some 20, toPort := some 8080
           ipRanges := [{ cidrIp := "0.0.0.0/0" }] }])⟩).1 =
      [.authorizeIngress "sg-1" [mkRule 22, mkRule 80, mkRule 8080]] := by
  decide

/-- C1 amended: for an existing group, reconciliation adds ingress
rules only for required ports (22, 80, 8080) whose value is not the
`FromPort` of an existing TCP rule with source 0.0.0.0/0 (a port merely
covered by a wider range rule is re-added); each missing port is added
as its own single-port TCP rule, all in one authorize call; no rule is
ever revoked.  For a group whose only unrestricted-source TCP rule is
the single-port rule for 22, exactly the rules for 80 and 8080 are
added. -/
theorem sg_reconcile_adds_only_missing (stage sgId : String)
    (perms : List IpPermission) :
    (∀ gid rs, SGAction.revokeIngress gid rs ∉
      (create_security_group stage ⟨false, some (sgId, perms)⟩).1) ∧
    ((create_security_group stage ⟨false, some (sgId, perms)⟩).1 = [] ∨
      (create_security_group stage ⟨false, some (sgId, perms)⟩).1 =
        [.authorizeIngress sgId ((portsToAdd perms).map mkRule)]) ∧
    ((create_security_group stage ⟨false, some (sgId, perms)⟩).1 = [] ↔
      portsToAdd perms = []) ∧
    (∀ p ∈ portsToAdd perms,
      p ∈ requiredPorts ∧ (existingPorts perms).contains p = false) ∧
    (∀ p, mkRule p = { ipProtocol := "tcp", fromPort := some p
                       toPort := some p
                       ipRanges := [{ cidrIp := "0.0.0.0/0" }] }) ∧
    (create_security_group stage ⟨false, some (sgId, perms)⟩).2 =
      .groupId sgId ∧
    create_security_group stage ⟨false, some (sgId, [mkRule 22])⟩ =
      ([.authorizeIngress sgId [mkRule 80, mkRule 8080]], .groupId sgId) := by
  refine ⟨?_, ?_, ?_, ?_, fun p => rfl, ?_, ?_⟩
  · intro gid rs
    by_cases h : (portsToAdd perms).isEmpty <;>
      simp [create_security_group, h]
  · by_cases h : (portsToAdd perms).isEmpty <;>
      simp [create_security_group, h]
  · by_cases h : (portsToAdd perms).isEmpty <;>
      simp [create_security_group, h] <;>
      simp [List.isEmpty_iff] at h <;> simp [h]
  · intro p hp
    unfold portsToAdd at hp
    rcases List.mem_filter.mp hp with ⟨hmem, hpred⟩
    refine ⟨hmem, ?_⟩
    simpa using hpred
  · by_cases h : (portsToAdd perms).isEmpty <;>
      simp [create_security_group, h]
  · simp [create_security_group, portsToAdd, existingPorts, requiredPorts,
      mkRule]

/-- C5: when the configuration lacks `bucket_name`, the run aborts
fatally before any cloud mutation: the whole run's mutation trace is
empty, the run does not complete, and the process exit code is
non-zero.  (The `KeyError` from building the read policy in
`create_iam_roles` fires before its first IAM call; if the caller
identity also failed to resolve, the earlier `sys.exit(1)` fires.) -/
theorem missing_bucket_aborts_before_mutation (stage : String)
    (cfg : Config) (sc : Scenario) (h : cfg.bucket_name = none) :
    (deploy stage cfg sc).1 = [] ∧
    (deploy stage cfg sc).2 ≠ .completed ∧
    (∀ rawStage, mainExitCode true rawStage cfg sc ≠ 0) := by
  rcases hc : sc.callerIdentity with _ | arn <;>
    simp [deploy, create_iam_roles, h, hc, mainExitCode]

/-- Witness for C5: the built-in default configuration, which has no
`bucket_name`, on the all-successful scenario. -/
theorem missing_bucket_aborts_before_mutation_witness :
    (deploy "dev" defaultConfig allOkScenario).1 = [] ∧
    (deploy "dev" defaultConfig allOkScenario).2 ≠ .completed ∧
    (∀ rawStage, mainExitCode true rawStage defaultConfig allOkScenario ≠ 0) :=
  missing_bucket_aborts_before_mutation "dev" defaultConfig allOkScenario rfl

/-- C6: the read-role trust policy permits `sts:AssumeRole` by exactly
the EC2 service principal and the caller's identity ARN; the
upload-role trust policy permits it only by the EC2 service principal;
and an unresolved caller identity makes `create_iam_roles` exit
fatally with no IAM call issued (hence before the policies are built). -/
theorem trust_policy_scoping (userArn : String) :
    (∀ p, trustAllowsAssume (read_role_trust_policy userArn) p ↔
      (p = .service "ec2.amazonaws.com" ∨ p = .aws userArn)) ∧
    (∀ p, trustAllowsAssume ec2_only_trust_policy p ↔
      p = .service "ec2.amazonaws.com") ∧
    (∀ stage cfg sc, create_iam_roles stage cfg none sc =
      ([], .fatalExit 1)) := by
  refine ⟨fun p => ?_, fun p => ?_, fun _ _ _ => rfl⟩ <;>
    simp [trustAllowsAssume, read_role_trust_policy,
      ec2_only_trust_policy, eq_comm]

/-- C7: the read role's inline policy allows exactly
{s3:GetObject, s3:ListBucket} on the configured bucket and its
contents; the upload role's inline policy allows exactly s3:PutObject
on the bucket's contents and s3:CreateBucket globally; and on every
run the only inline policies `create_iam_roles` puts are those two
documents on those two roles, and the only managed policy it attaches
is the SSM instance-core policy, on the upload role. -/
theorem role_policies_least_privilege (bucket : String) :
    (∀ a r, permAllows (read_policy bucket) a r ↔
      ((a = "s3:GetObject" ∨ a = "s3:ListBucket") ∧
       (r = "arn:aws:s3:::" ++ bucket ∨
        r = "arn:aws:s3:::" ++ bucket ++ "/*"))) ∧
    (∀ a r, permAllows (upload_policy bucket) a r ↔
      ((a = "s3:PutObject" ∧ r = "arn:aws:s3:::" ++ bucket ++ "/*") ∨
       (a = "s3:CreateBucket" ∧ r = "arn:aws:s3:::*"))) ∧
    (∀ stage cfg identity sc role pn doc,
      IamAction.putRolePolicy role pn doc ∈
        (create_iam_roles stage cfg identity sc).1 →
      ∃ b, cfg.bucket_name = some b ∧
        ((role = readRoleName stage ∧ pn = "S3ReadOnlyPolicy" ∧
            doc = read_policy b) ∨
         (role = uploadRoleName stage ∧ pn = "S3UploadOnlyPolicy" ∧
            doc = upload_policy b))) ∧
    (∀ stage cfg identity sc role arn2,
      IamAction.attachRolePolicy role arn2 ∈
        (create_iam_roles stage cfg identity sc).1 →
      role = uploadRoleName stage ∧ arn2 = ssmManagedPolicyArn) := by
  refine ⟨fun a r => ?_, fun a r => ?_, ?_, ?_⟩
  · simp [permAllows, read_policy, eq_comm]
  · simp [permAllows, upload_policy, eq_comm]
  · intro stage cfg identity sc role pn doc hmem
    rcases identity with _ | u
    · simp [create_iam_roles] at hmem
    · rcases hb : cfg.bucket_name with _ | b
      · simp [create_iam_roles, hb] at hmem
      · refine ⟨b, rfl, ?_⟩
        simp only [create_iam_roles, hb] at hmem
        split_ifs at hmem <;> simp_all
  · intro stage cfg identity sc role arn2 hmem
    rcases identity with _ | u
    · simp [create_iam_roles] at hmem
    · rcases hb : cfg.bucket_name with _ | b
      · simp [create_iam_roles, hb] at hmem
      · simp only [create_iam_roles, hb] at hmem
        split_ifs at hmem <;> simp_all

/-- Every fatal exit of `create_iam_roles` carries code 1. -/
theorem create_iam_roles_fatal_code_one (stage : String) (cfg : Config)
    (identity : Option String) (sc : IamScenario) (c : Nat)
    (h : (create_iam_roles stage cfg identity sc).2 = .fatalExit c) : c = 1 := by
  rcases identity with _ | u
  · simp [create_iam_roles] at h
    omega
  · rcases hb : cfg.bucket_name with _ | b <;>
      simp only [create_iam_roles, hb] at h
    · simp at h
    · split_ifs at h

/-- Every `sys.exit` of `create_s3_bucket` carries code 1. -/
theorem create_s3_bucket_exit_code_one (cfg : Config) (sc : S3Scenario) (c : Nat)
    (h : (create_s3_bucket cfg sc).2 = .sysExit c) : c = 1 := by
  rcases sc with ⟨o1, o2, o3⟩
  rcases hb : cfg.bucket_name with _ | b <;>
    cases o1 <;> cases o2 <;> cases o3 <;>
      simp_all [create_s3_bucket, s3ErrorHandler, hb]

/-- Every fatal exit of `launch_instance` carries code 1. -/
theorem launch_instance_exit_code_one (stage : String) (cfg : Config)
    (sgSc : SGScenario) (err : Bool) (c : Nat)
    (h : (launch_instance stage cfg sgSc err).2 = .fatalExit c) : c = 1 := by
  unfold launch_instance at h
  split at h
  · split_ifs at h
    simp_all
  · simp at h

/-- Every explicit `sys.exit` a deployment run performs carries code 1. -/
theorem deploy_exited_code_one (stage : String) (cfg : Config) (sc : Scenario)
    (c : Nat) (h : (deploy stage cfg sc).2 = .exited c) : c = 1 := by
  simp only [deploy] at h
  split at h
  case _ heq =>
    simp at h
    have := create_iam_roles_fatal_code_one _ _ _ _ _ heq
    omega
  case _ => simp at h
  case _ => simp at h; omega
  case _ =>
    split at h
    case _ heq2 =>
      simp at h
      have := create_s3_bucket_exit_code_one _ _ _ heq2
      omega
    case _ =>
      split at h
      case _ heq3 =>
        simp at h
        have := launch_instance_exit_code_one _ _ _ _ _ heq3
        omega
      case _ => simp at h
      case _ =>
        split at h
        case _ => simp at h
        case _ => simp at h

/-- C8: the process exit code is 1 when credentials are missing; the
reachability verifier's result has no influence on the exit code; and
the exit code is 0 exactly when the deployment sequence ran to
completion (so every fatal provisioning/launch abort yields a non-zero
code, while a failed reachability check on a completed run still
yields 0). -/
theorem exit_code_policy (rawStage : String) (cfg : Config) (sc : Scenario) :
    mainExitCode false rawStage cfg sc = 1 ∧
    (∀ p1 p2, mainExitCode true rawStage cfg { sc with probes := p1 } =
              mainExitCode true rawStage cfg { sc with probes := p2 }) ∧
    ((mainExitCode true rawStage cfg sc = 0) ↔
      (deploy (stageOf rawStage) cfg sc).2 = .completed) := by
  refine ⟨rfl, fun p1 p2 => rfl, ?_⟩
  unfold mainExitCode
  rcases hd : (deploy (stageOf rawStage) cfg sc).2 with _ | c | _ <;> simp [hd]
  have := deploy_exited_code_one _ _ _ _ hd
  omega

end Deploy
